import Mathlib

/-!
Verification of the Energia tariff comparison engine (src/App.tsx).

Numbers are modelled as rationals: the JavaScript source performs only
addition, subtraction, multiplication, `Math.min`/`Math.max` and comparisons
inside the calculation core, with no rounding mid-computation.  The single
division in the code (the yearly-savings extrapolation `365 / billingDays`)
is modelled separately with an `Option` result, `none` standing for the
non-finite IEEE value (Infinity or NaN) that JavaScript produces when the
divisor is zero.
-/

/-- Tax inputs of `calculateWithVat` (src/App.tsx line 162): audiovisual tax
(cav), DGEG exploration tax, IEC excise tax and the social-tariff
adjustment. -/
structure Taxes where
  cav : ℚ
  dgeg : ℚ
  iec : ℚ
  social : ℚ
deriving DecidableEq

/-- One base/vat/total sub-breakdown of the returned cost object
(src/App.tsx lines 207-213). -/
structure SubCost where
  base : ℚ
  vat : ℚ
  total : ℚ
deriving DecidableEq

/-- The `components` field of the breakdown (src/App.tsx lines 206-214). -/
structure Components where
  energy : SubCost
  power : SubCost
  taxes : SubCost
deriving DecidableEq

/-- The object returned by `calculateWithVat` (src/App.tsx lines 202-215). -/
structure CostBreakdown where
  base : ℚ
  vat : ℚ
  total : ℚ
  components : Components
deriving DecidableEq

/-- VAT low rate, `IVA_LOW = 0.06` (src/App.tsx line 164). -/
def IVA_LOW : ℚ := 6 / 100

/-- VAT standard rate, `IVA_NORMAL = 0.23` (src/App.tsx line 165). -/
def IVA_NORMAL : ℚ := 23 / 100

/-- Direct embedding of `calculateWithVat` (src/App.tsx lines 156-216). -/
def calculateWithVat (consumption powerKva days powerPrice energyPrice : ℚ)
    (taxes : Taxes) : CostBreakdown :=
  let powerBaseCost := days * powerPrice
  let powerVatRate := if powerKva ≤ 69 / 10 then IVA_LOW else IVA_NORMAL
  let powerVat := powerBaseCost * powerVatRate
  let energyBaseCost := consumption * energyPrice
  let energyVat :=
    if powerKva ≤ 69 / 10 then
      let tier1Cap : ℚ := 100
      let tier1Kwh := min consumption tier1Cap
      let tier2Kwh := max 0 (consumption - tier1Cap)
      let tier1Cost := tier1Kwh * energyPrice
      let tier2Cost := tier2Kwh * energyPrice
      tier1Cost * IVA_LOW + tier2Cost * IVA_NORMAL
    else
      energyBaseCost * IVA_NORMAL
  let cavVat := taxes.cav * IVA_LOW
  let dgegVat := taxes.dgeg * IVA_NORMAL
  let iecVat := taxes.iec * IVA_NORMAL
  let socialVat : ℚ := 0
  let totalBase := powerBaseCost + energyBaseCost + taxes.cav + taxes.dgeg
    + taxes.iec + taxes.social
  let totalVat := powerVat + energyVat + cavVat + dgegVat + iecVat + socialVat
  let totalWithVat := totalBase + totalVat
  { base := totalBase
    vat := totalVat
    total := totalWithVat
    components :=
      { energy :=
          { base := energyBaseCost
            vat := energyVat
            total := energyBaseCost + energyVat }
        power :=
          { base := powerBaseCost
            vat := powerVat
            total := powerBaseCost + powerVat }
        taxes :=
          { base := taxes.cav + taxes.dgeg + taxes.iec + taxes.social
            vat := cavVat + dgegVat + iecVat + socialVat
            total := (taxes.cav + taxes.dgeg + taxes.iec + taxes.social)
              + (cavVat + dgegVat + iecVat + socialVat) } } }

/-- C1: with contracted power at most 6.9 kVA, the energy VAT splits
consumption into tier 1 = min(consumption, 100 kWh) at the low rate and
tier 2 = the remainder at the standard rate, both tiers priced at the same
unit energy price; with contracted power above 6.9 kVA, the whole energy
base (consumption times energy price) is taxed at the standard rate,
regardless of consumption. -/
theorem energyVat_tier_split (c pow days pp ep : ℚ) (t : Taxes) :
    (pow ≤ 69 / 10 →
      (calculateWithVat c pow days pp ep t).components.energy.vat
        = (min c 100 * ep) * IVA_LOW + (max 0 (c - 100) * ep) * IVA_NORMAL) ∧
    (69 / 10 < pow →
      (calculateWithVat c pow days pp ep t).components.energy.vat
        = (c * ep) * IVA_NORMAL) := by
  constructor
  · intro h
    simp [calculateWithVat, h]
  · intro h
    simp [calculateWithVat, not_le.mpr h]

/-- Witness for C1 at the concrete input of the spec example
(consumption 200 kWh, power 4.6 kVA). -/
theorem energyVat_tier_split_witness :
    (calculateWithVat 200 (23 / 5) 30 (3 / 20) (9 / 50) ⟨3 / 2, 1 / 10, 6, 0⟩).components.energy.vat
      = (min (200 : ℚ) 100 * (9 / 50)) * IVA_LOW
        + (max 0 ((200 : ℚ) - 100) * (9 / 50)) * IVA_NORMAL :=
  (energyVat_tier_split 200 (23 / 5) 30 (3 / 20) (9 / 50) ⟨3 / 2, 1 / 10, 6, 0⟩).1
    (by norm_num)

/-- C2: for billingDays > 0, powerKva ≥ 0 and energyPrice ≥ 0, the returned
breakdown satisfies total = base + vat exactly, and each of the three
sub-breakdowns (energy, power, taxes) satisfies the same identity. -/
theorem total_eq_base_add_vat (c pow days pp ep : ℚ) (t : Taxes)
    (hdays : 0 < days) (hpow : 0 ≤ pow) (hep : 0 ≤ ep) :
    (calculateWithVat c pow days pp ep t).total
        = (calculateWithVat c pow days pp ep t).base
          + (calculateWithVat c pow days pp ep t).vat ∧
    (calculateWithVat c pow days pp ep t).components.energy.total
        = (calculateWithVat c pow days pp ep t).components.energy.base
          + (calculateWithVat c pow days pp ep t).components.energy.vat ∧
    (calculateWithVat c pow days pp ep t).components.power.total
        = (calculateWithVat c pow days pp ep t).components.power.base
          + (calculateWithVat c pow days pp ep t).components.power.vat ∧
    (calculateWithVat c pow days pp ep t).components.taxes.total
        = (calculateWithVat c pow days pp ep t).components.taxes.base
          + (calculateWithVat c pow days pp ep t).components.taxes.vat := by
  refine ⟨rfl, rfl, rfl, rfl⟩

/-- Witness for C2 at a concrete input with positive billing days. -/
theorem total_eq_base_add_vat_witness :
    (0 : ℚ) < 30 ∧
    (calculateWithVat 200 (23 / 5) 30 (3 / 20) (9 / 50) ⟨3 / 2, 1 / 10, 6, 0⟩).total
      = (calculateWithVat 200 (23 / 5) 30 (3 / 20) (9 / 50) ⟨3 / 2, 1 / 10, 6, 0⟩).base
        + (calculateWithVat 200 (23 / 5) 30 (3 / 20) (9 / 50) ⟨3 / 2, 1 / 10, 6, 0⟩).vat :=
  ⟨by norm_num,
    (total_eq_base_add_vat 200 (23 / 5) 30 (3 / 20) (9 / 50) ⟨3 / 2, 1 / 10, 6, 0⟩
      (by norm_num) (by norm_num) (by norm_num)).1⟩

/-- C7: replacing a social tariff of 0 with a social tariff of -5 lowers the
base total by exactly 5 and leaves the VAT total unchanged, for every value
of the other inputs. -/
theorem social_tariff_base_shift (c pow days pp ep cav dgeg iec : ℚ) :
    (calculateWithVat c pow days pp ep ⟨cav, dgeg, iec, -5⟩).base
        = (calculateWithVat c pow days pp ep ⟨cav, dgeg, iec, 0⟩).base - 5 ∧
    (calculateWithVat c pow days pp ep ⟨cav, dgeg, iec, -5⟩).vat
        = (calculateWithVat c pow days pp ep ⟨cav, dgeg, iec, 0⟩).vat := by
  constructor
  · simp only [calculateWithVat]
    ring
  · rfl

/-- C9: the grand total is the sum of the three component totals, and the
top-level base and vat are likewise the sums of the components' bases and
vats: the three sub-breakdowns partition the breakdown. -/
theorem breakdown_partition (c pow days pp ep : ℚ) (t : Taxes) :
    (calculateWithVat c pow days pp ep t).total
        = (calculateWithVat c pow days pp ep t).components.energy.total
          + (calculateWithVat c pow days pp ep t).components.power.total
          + (calculateWithVat c pow days pp ep t).components.taxes.total ∧
    (calculateWithVat c pow days pp ep t).base
        = (calculateWithVat c pow days pp ep t).components.energy.base
          + (calculateWithVat c pow days pp ep t).components.power.base
          + (calculateWithVat c pow days pp ep t).components.taxes.base ∧
    (calculateWithVat c pow days pp ep t).vat
        = (calculateWithVat c pow days pp ep t).components.energy.vat
          + (calculateWithVat c pow days pp ep t).components.power.vat
          + (calculateWithVat c pow days pp ep t).components.taxes.vat := by
  refine ⟨?_, ?_, ?_⟩ <;>
  · simp only [calculateWithVat]
    ring

/-- The breakdown computed by the code at the spec example input:
consumption 200 kWh, power 4.6 kVA, 30 days, power price 0.15, energy
price 0.18, taxes cav = 1.5, dgeg = 0.10, iec = 6.0, social = 0. -/
def exampleBreakdown : CostBreakdown :=
  calculateWithVat 200 (23 / 5) 30 (3 / 20) (9 / 50) ⟨3 / 2, 1 / 10, 6, 0⟩

/-- C3 counterexample: at the spec example input the code's energy VAT is
5.22 (tier 1 is 100 kWh x 0.18 x 0.06 = 1.08, not the 0.54 of the spec),
so the claimed energy VAT of 4.68 is wrong. -/
theorem example_energy_vat_counterexample :
    exampleBreakdown.components.energy.vat = 261 / 50 ∧
    ¬ exampleBreakdown.components.energy.vat = 117 / 25 := by
  constructor
  · norm_num [exampleBreakdown, calculateWithVat, IVA_LOW, IVA_NORMAL]
  · norm_num [exampleBreakdown, calculateWithVat, IVA_LOW, IVA_NORMAL]

/-- C3 amended: at the spec example input the code returns power base 4.50,
energy base 36.00, energy VAT 5.22 (tier 1 VAT 1.08, tier 2 VAT 4.14),
power VAT 0.27, taxes VAT 1.493 (cav 0.09 + dgeg 0.023 + iec 1.38),
base total 48.10, VAT total 6.983 and grand total 55.083. -/
theorem example_breakdown_values :
    exampleBreakdown.components.power.base = 9 / 2 ∧
    exampleBreakdown.components.energy.base = 36 ∧
    exampleBreakdown.components.energy.vat = 261 / 50 ∧
    exampleBreakdown.components.power.vat = 27 / 100 ∧
    exampleBreakdown.components.taxes.vat = 1493 / 1000 ∧
    exampleBreakdown.base = 481 / 10 ∧
    exampleBreakdown.vat = 6983 / 1000 ∧
    exampleBreakdown.total = 55083 / 1000 := by
  refine ⟨?_, ?_, ?_, ?_, ?_, ?_, ?_, ?_⟩ <;>
    norm_num [exampleBreakdown, calculateWithVat, IVA_LOW, IVA_NORMAL]

/-- C8 counterexample: with power 4.6 kVA, consumption 200 kWh and an energy
price of zero, both the energy base and the energy VAT are zero, so the
energy VAT is not strictly between the low-rate and standard-rate bounds. -/
theorem energy_vat_blend_zero_price_counterexample :
    ¬ (IVA_LOW * (calculateWithVat 200 (23 / 5) 30 (3 / 20) 0 ⟨0, 0, 0, 0⟩).components.energy.base
          < (calculateWithVat 200 (23 / 5) 30 (3 / 20) 0 ⟨0, 0, 0, 0⟩).components.energy.vat
        ∧ (calculateWithVat 200 (23 / 5) 30 (3 / 20) 0 ⟨0, 0, 0, 0⟩).components.energy.vat
          < IVA_NORMAL * (calculateWithVat 200 (23 / 5) 30 (3 / 20) 0 ⟨0, 0, 0, 0⟩).components.energy.base) := by
  norm_num [calculateWithVat, IVA_LOW, IVA_NORMAL]

/-- C8 amended: with power at most 6.9 kVA and consumption at most 100 kWh
the whole energy cost is taxed at the low rate; with power at most 6.9 kVA,
consumption above 100 kWh and a positive energy price, the energy VAT lies
strictly between the low-rate and the standard-rate bound on the energy
base. -/
theorem energy_vat_low_rate_and_strict_blend (c pow days pp ep : ℚ) (t : Taxes)
    (hpow : pow ≤ 69 / 10) :
    (c ≤ 100 →
      (calculateWithVat c pow days pp ep t).components.energy.vat
        = IVA_LOW * (calculateWithVat c pow days pp ep t).components.energy.base) ∧
    (100 < c → 0 < ep →
      IVA_LOW * (calculateWithVat c pow days pp ep t).components.energy.base
          < (calculateWithVat c pow days pp ep t).components.energy.vat ∧
      (calculateWithVat c pow days pp ep t).components.energy.vat
          < IVA_NORMAL * (calculateWithVat c pow days pp ep t).components.energy.base) := by
  constructor
  · intro hc
    simp only [calculateWithVat, if_pos hpow]
    rw [min_eq_left hc, max_eq_left (by linarith : c - 100 ≤ 0)]
    ring
  · intro hc hep
    simp only [calculateWithVat, if_pos hpow]
    rw [min_eq_right (le_of_lt hc), max_eq_right (by linarith : (0 : ℚ) ≤ c - 100)]
    constructor
    · rw [IVA_LOW, IVA_NORMAL]
      nlinarith [mul_pos (by linarith : (0 : ℚ) < c - 100) hep]
    · rw [IVA_LOW, IVA_NORMAL]
      nlinarith [mul_pos (by linarith : (0 : ℚ) < c - 100) hep]

/-- Witness for C8 at power 4.6 kVA, consumption 200 kWh, energy price
0.18: the strict blend bounds hold there. -/
theorem energy_vat_low_rate_and_strict_blend_witness :
    IVA_LOW * (calculateWithVat 200 (23 / 5) 30 (3 / 20) (9 / 50) ⟨3 / 2, 1 / 10, 6, 0⟩).components.energy.base
        < (calculateWithVat 200 (23 / 5) 30 (3 / 20) (9 / 50) ⟨3 / 2, 1 / 10, 6, 0⟩).components.energy.vat
      ∧ (calculateWithVat 200 (23 / 5) 30 (3 / 20) (9 / 50) ⟨3 / 2, 1 / 10, 6, 0⟩).components.energy.vat
        < IVA_NORMAL * (calculateWithVat 200 (23 / 5) 30 (3 / 20) (9 / 50) ⟨3 / 2, 1 / 10, 6, 0⟩).components.energy.base :=
  (energy_vat_low_rate_and_strict_blend 200 (23 / 5) 30 (3 / 20) (9 / 50)
      ⟨3 / 2, 1 / 10, 6, 0⟩ (by norm_num)).2 (by norm_num) (by norm_num)

/-- The bill fields of the app state (src/App.tsx lines 9-20). -/
structure BillData where
  monthlyConsumptionKwh : ℚ
  contractedPowerKva : ℚ
  audiovisualTax : ℚ
  dgegTax : ℚ
  ieceTax : ℚ
  socialTariff : ℚ
  totalAmount : ℚ
  billingPeriodDays : ℚ
  currentPowerPricePerDay : ℚ
  currentEnergyPricePerKwh : ℚ
deriving DecidableEq

/-- The new offer fields (src/App.tsx lines 22-26). -/
structure NewOfferData where
  supplierName : String
  powerPricePerDay : ℚ
  energyPricePerKwh : ℚ
deriving DecidableEq

/-- The JavaScript idiom `x || 0` applied to a finite number: it is the
identity (it maps 0 to 0 and any other number to itself); used on the
bill's current unit prices (src/App.tsx lines 224-225). -/
def orZero (x : ℚ) : ℚ := if x = 0 then 0 else x

/-- The taxes object built from the bill (src/App.tsx lines 226-231 and
277-282). -/
def taxesOfBill (b : BillData) : Taxes :=
  ⟨b.audiovisualTax, b.dgegTax, b.ieceTax, b.socialTariff⟩

/-- The `currentCalculated` memo (src/App.tsx lines 219-233): the current
bill's breakdown from its own unit prices. -/
def currentCalculated (b : BillData) : CostBreakdown :=
  calculateWithVat b.monthlyConsumptionKwh b.contractedPowerKva
    b.billingPeriodDays (orZero b.currentPowerPricePerDay)
    (orZero b.currentEnergyPricePerKwh) (taxesOfBill b)

/-- The JavaScript expression `difference * (365 / billingDays)`
(src/App.tsx lines 264 and 295) on IEEE floats: `none` stands for the
non-finite value (Infinity, or NaN when difference = 0) that arises exactly
when billingDays = 0, since 365/0 is Infinity in JavaScript. -/
def jsYearlySavings (difference days : ℚ) : Option ℚ :=
  if days = 0 then none else some (difference * (365 / days))

/-- One current/new pair of the comparison details (src/App.tsx
lines 265-269). -/
structure CostPair where
  current : ℚ
  new : ℚ
deriving DecidableEq

/-- The `details` field of a comparison result (src/App.tsx lines 265-269). -/
structure ComparisonDetails where
  energyCost : CostPair
  powerCost : CostPair
  taxes : CostPair
deriving DecidableEq

/-- The comparison result object (src/App.tsx lines 257-270). -/
structure ComparisonResult where
  currentTotal : ℚ
  newTotal : ℚ
  currentBase : ℚ
  newBase : ℚ
  difference : ℚ
  isCheaper : Bool
  yearlySavings : Option ℚ
  details : ComparisonDetails
deriving DecidableEq

/-- Direct embedding of the `comparison` memo (src/App.tsx lines 235-271):
null when the bill has zero consumption, otherwise the comparison of the
current bill against the new offer. -/
def comparison (billData : BillData) (newOffer : NewOfferData) :
    Option ComparisonResult :=
  if billData.monthlyConsumptionKwh = 0 then none
  else
    let current := currentCalculated billData
    let newOfferCalc := calculateWithVat billData.monthlyConsumptionKwh
      billData.contractedPowerKva billData.billingPeriodDays
      newOffer.powerPricePerDay newOffer.energyPricePerKwh
      (taxesOfBill billData)
    let difference := current.total - newOfferCalc.total
    some
      { currentTotal := current.total
        newTotal := newOfferCalc.total
        currentBase := current.base
        newBase := newOfferCalc.base
        difference := difference
        isCheaper := decide (newOfferCalc.total < current.total)
        yearlySavings := jsYearlySavings difference billData.billingPeriodDays
        details :=
          { energyCost := ⟨current.components.energy.total, newOfferCalc.components.energy.total⟩
            powerCost := ⟨current.components.power.total, newOfferCalc.components.power.total⟩
            taxes := ⟨current.components.taxes.total, newOfferCalc.components.taxes.total⟩ } }

/-- C5: `comparison` returns null exactly when the bill's consumption is
zero; with nonzero consumption it returns a result whose current and new
totals are both computed by `calculateWithVat` against the same
consumption, contracted power, billing days and taxes of the current bill,
with difference = currentTotal - newTotal and isCheaper the strict
comparison newTotal < currentTotal. -/
theorem comparison_null_iff_and_fields (billData : BillData)
    (newOffer : NewOfferData) :
    (comparison billData newOffer = none ↔ billData.monthlyConsumptionKwh = 0) ∧
    (billData.monthlyConsumptionKwh ≠ 0 →
      ∃ r, comparison billData newOffer = some r ∧
        r.currentTotal = (calculateWithVat billData.monthlyConsumptionKwh
          billData.contractedPowerKva billData.billingPeriodDays
          (orZero billData.currentPowerPricePerDay)
          (orZero billData.currentEnergyPricePerKwh) (taxesOfBill billData)).total ∧
        r.newTotal = (calculateWithVat billData.monthlyConsumptionKwh
          billData.contractedPowerKva billData.billingPeriodDays
          newOffer.powerPricePerDay newOffer.energyPricePerKwh
          (taxesOfBill billData)).total ∧
        r.difference = r.currentTotal - r.newTotal ∧
        (r.isCheaper = true ↔ r.newTotal < r.currentTotal)) := by
  constructor
  · constructor
    · intro h
      by_contra hne
      simp only [comparison, if_neg hne] at h
      exact Option.some_ne_none _ h
    · intro h
      simp only [comparison, if_pos h]
  · intro hne
    simp only [comparison, if_neg hne]
    refine ⟨_, rfl, rfl, rfl, rfl, ?_⟩
    simp

/-- Witness for C5 at a concrete bill with consumption 200 kWh. -/
theorem comparison_null_iff_and_fields_witness :
    ∃ r, comparison
        ⟨200, 23 / 5, 3 / 2, 1 / 10, 6, 0, 0, 30, 3 / 20, 9 / 50⟩
        ⟨"X", 7 / 50, 4 / 25⟩ = some r ∧
      r.currentTotal = (calculateWithVat 200 (23 / 5) 30
        (orZero (3 / 20)) (orZero (9 / 50))
        (taxesOfBill ⟨200, 23 / 5, 3 / 2, 1 / 10, 6, 0, 0, 30, 3 / 20, 9 / 50⟩)).total ∧
      r.newTotal = (calculateWithVat 200 (23 / 5) 30 (7 / 50) (4 / 25)
        (taxesOfBill ⟨200, 23 / 5, 3 / 2, 1 / 10, 6, 0, 0, 30, 3 / 20, 9 / 50⟩)).total ∧
      r.difference = r.currentTotal - r.newTotal ∧
      (r.isCheaper = true ↔ r.newTotal < r.currentTotal) :=
  (comparison_null_iff_and_fields
      ⟨200, 23 / 5, 3 / 2, 1 / 10, 6, 0, 0, 30, 3 / 20, 9 / 50⟩
      ⟨"X", 7 / 50, 4 / 25⟩).2 (by norm_num)

/-- A bill with a zero-day billing period and nonzero consumption, as a
user can enter in the form: the failing input for the division hazard. -/
def zeroDaysBill : BillData := ⟨100, 23 / 5, 0, 0, 0, 0, 0, 0, 1 / 10, 1 / 10⟩

/-- C4: the code does not guard the yearly-savings extrapolation against
billingDays = 0: on a bill with zero billing days and nonzero consumption,
`comparison` still returns a result, and its yearlySavings is the
non-finite value (none) produced by dividing by zero, contradicting the
spec requirement that the result never be infinite or NaN. -/
theorem yearlySavings_nonfinite_at_zero_days :
    ∃ r, comparison zeroDaysBill ⟨"X", 1 / 5, 1 / 5⟩ = some r ∧
      r.yearlySavings = none := by
  have hc : zeroDaysBill.monthlyConsumptionKwh ≠ 0 := by norm_num [zeroDaysBill]
  simp only [comparison, if_neg hc]
  exact ⟨_, rfl, by simp [jsYearlySavings, zeroDaysBill]⟩

/-- A successfully JSON-parsed uploaded document, before validation: every
field of a saved simulation may be absent (src/App.tsx line 119 casts the
parsed value without checking). -/
structure ParsedJson where
  version : Option String
  timestamp : Option String
  billData : Option BillData
  newOffer : Option NewOfferData
deriving DecidableEq

/-- A saved simulation as stored in the multi-simulation list after the
loader accepted it: the offer is present and the timestamp has been filled
in, while version and bill data may still be absent (src/App.tsx
lines 119-122). -/
structure SavedSimulation where
  version : Option String
  timestamp : String
  billData : Option BillData
  newOffer : NewOfferData
deriving DecidableEq

/-- One uploaded file of the batch loader: `none` models content that fails
to parse as JSON, `some j` models content parsing to the document `j`. -/
def UploadedFile : Type := Option ParsedJson

/-- How `handleAddMultiSimulations` treats one file (src/App.tsx
lines 117-127): a file that fails to parse, or whose document has no
newOffer field, is skipped; otherwise the document is kept, a missing
timestamp being replaced by the current time `now`. -/
def processMultiSimFile (now : String) (file : Option ParsedJson) :
    Option SavedSimulation :=
  match file with
  | none => none
  | some j =>
    match j.newOffer with
    | none => none
    | some off => some ⟨j.version, j.timestamp.getD now, j.billData, off⟩

/-- The pieces of application state the batch loader can observe or update
(src/App.tsx lines 29-41). -/
structure AppState where
  billData : BillData
  newOffer : NewOfferData
  multiSimulations : List SavedSimulation
  errorMsg : Option String
deriving DecidableEq

/-- Direct embedding of `handleAddMultiSimulations` (src/App.tsx
lines 108-142): after all file reads complete, the accepted documents are
appended to the existing list in one update; nothing else in the state is
touched. -/
def handleAddMultiSimulations (now : String) (files : List (Option ParsedJson))
    (s : AppState) : AppState :=
  { s with multiSimulations :=
      s.multiSimulations ++ files.filterMap (processMultiSimFile now) }

/-- C10: the batch loader adds exactly the uploaded files that parse as
JSON and contain a newOffer field; a document missing billData, version or
timestamp is still accepted, a missing timestamp being filled with the
current time; a file that fails to parse is skipped silently, with no
change to the error message or to the loaded bill and offer state. -/
theorem handleAddMultiSimulations_spec (now : String)
    (files : List (Option ParsedJson)) (s : AppState) :
    (handleAddMultiSimulations now files s).billData = s.billData ∧
    (handleAddMultiSimulations now files s).newOffer = s.newOffer ∧
    (handleAddMultiSimulations now files s).errorMsg = s.errorMsg ∧
    (handleAddMultiSimulations now files s).multiSimulations
      = s.multiSimulations ++ files.filterMap (processMultiSimFile now) ∧
    (∀ f : Option ParsedJson,
      (processMultiSimFile now f).isSome = true
        ↔ ∃ j off, f = some j ∧ j.newOffer = some off) ∧
    (∀ j : ParsedJson, ∀ off : NewOfferData, j.newOffer = some off →
      processMultiSimFile now (some j)
        = some ⟨j.version, j.timestamp.getD now, j.billData, off⟩) := by
  refine ⟨rfl, rfl, rfl, rfl, ?_, ?_⟩
  · intro f
    match f with
    | none => simp [processMultiSimFile]
    | some j =>
      match hoff : j.newOffer with
      | none => simp [processMultiSimFile, hoff]
      | some off => simp [processMultiSimFile, hoff]
  · intro j off hoff
    simp [processMultiSimFile, hoff]

/-- Witness for C10: a parsed document with only a newOffer field (no
version, timestamp or bill data) is accepted, its timestamp filled with the
current time. -/
theorem handleAddMultiSimulations_spec_witness :
    processMultiSimFile "2024-01-01" (some ⟨none, none, none, some ⟨"S", 1 / 10, 1 / 10⟩⟩)
      = some ⟨none, "2024-01-01", none, ⟨"S", 1 / 10, 1 / 10⟩⟩ :=
  (handleAddMultiSimulations_spec "2024-01-01" []
      ⟨⟨0, 0, 0, 0, 0, 0, 0, 30, 0, 0⟩, ⟨"", 0, 0⟩, [], none⟩).2.2.2.2.2
    ⟨none, none, none, some ⟨"S", 1 / 10, 1 / 10⟩⟩ ⟨"S", 1 / 10, 1 / 10⟩ rfl

/-- One entry of the ranked multi-comparison table (src/App.tsx
lines 297-303): the saved simulation together with its original insertion
index, the total computed for the current bill, the yearly-savings
extrapolation and the cheaper flag. -/
structure RankedResult where
  sim : SavedSimulation
  originalIndex : ℕ
  calculatedTotal : ℚ
  yearlySavings : Option ℚ
  isCheaper : Bool
deriving DecidableEq

/-- The body of the `map` in `multiComparisonResults` (src/App.tsx
lines 284-304): the offer's prices are applied to the current bill's
consumption, power, days and taxes. -/
def rankSim (billData : BillData) (index : ℕ) (sim : SavedSimulation) :
    RankedResult :=
  let res := calculateWithVat billData.monthlyConsumptionKwh
    billData.contractedPowerKva billData.billingPeriodDays
    sim.newOffer.powerPricePerDay sim.newOffer.energyPricePerKwh
    (taxesOfBill billData)
  let diff := (currentCalculated billData).total - res.total
  { sim := sim
    originalIndex := index
    calculatedTotal := res.total
    yearlySavings := jsYearlySavings diff billData.billingPeriodDays
    isCheaper := decide (res.total < (currentCalculated billData).total) }

/-- The list of ranked entries before sorting, in insertion order, each
entry carrying its original index (src/App.tsx lines 284-304). -/
def rankedOf (billData : BillData) (sims : List SavedSimulation) :
    List RankedResult :=
  (sims.enum).map (fun p => rankSim billData p.1 p.2)

/-- Direct embedding of the `multiComparisonResults` memo (src/App.tsx
lines 274-308): empty on zero consumption or an empty offer list, otherwise
the ranked entries sorted ascending by calculated total.  The JavaScript
`Array.prototype.sort` with the numeric comparator
`a.calculatedTotal - b.calculatedTotal` is a stable sort by that key, which
`List.mergeSort` models. -/
def multiComparisonResults (billData : BillData)
    (sims : List SavedSimulation) : List RankedResult :=
  if billData.monthlyConsumptionKwh = 0 ∨ sims = [] then []
  else (rankedOf billData sims).mergeSort
    (fun a b => decide (a.calculatedTotal ≤ b.calculatedTotal))

/-- The index-aware comparator `List.enumLE` applied to a rational sort key
holds exactly when the first key is smaller, or the keys are equal and the
first index is not larger. -/
theorem enumLE_decide_iff {α : Type} (key : α → ℚ) (p q : ℕ × α) :
    List.enumLE (fun a b => decide (key a ≤ key b)) p q = true
      ↔ key p.2 < key q.2 ∨ (key p.2 = key q.2 ∧ p.1 ≤ q.1) := by
  by_cases h1 : key p.2 ≤ key q.2
  · by_cases h2 : key q.2 ≤ key p.2
    · simp [List.enumLE, h1, h2, le_antisymm h1 h2, not_lt.mpr h2]
    · simp [List.enumLE, h1, h2, lt_of_le_not_le h1 h2]
  · rw [not_le] at h1
    simp [List.enumLE, not_le.mpr h1, lt_asymm h1, h1.ne']

/-- Stability of the sort by a rational key: when every element of the
input list carries its own position as an index, the sorted output is
pairwise ordered by the key, with equal keys ordered by index — the
tie-by-insertion-order behaviour of a stable sort. -/
theorem stable_sort_pairwise {α : Type} (key : α → ℚ) (idx : α → ℕ)
    (l : List α) (hidx : ∀ p ∈ l.enum, idx p.2 = p.1) :
    (l.mergeSort (fun a b => decide (key a ≤ key b))).Pairwise
      (fun a b => key a ≤ key b ∧ (key a = key b → idx a < idx b)) := by
  have htrans : ∀ a b c : α, (fun a b => decide (key a ≤ key b)) a b →
      (fun a b => decide (key a ≤ key b)) b c →
      (fun a b => decide (key a ≤ key b)) a c := by
    intro a b c hab hbc
    simp only [decide_eq_true_eq] at hab hbc ⊢
    exact le_trans hab hbc
  have htotal : ∀ a b : α, (fun a b => decide (key a ≤ key b)) a b
      || (fun a b => decide (key a ≤ key b)) b a := by
    intro a b
    simp only [Bool.or_eq_true, decide_eq_true_eq]
    exact le_total (key a) (key b)
  have hsorted := List.sorted_mergeSort (List.enumLE_trans htrans)
    (List.enumLE_total htotal) l.enum
  have hperm := List.mergeSort_perm l.enum
    (List.enumLE (fun a b => decide (key a ≤ key b)))
  have hnodup : (List.mergeSort l.enum
      (List.enumLE (fun a b => decide (key a ≤ key b)))).Pairwise
      (fun p q : ℕ × α => p.1 ≠ q.1) := by
    have h1 : (l.enum.map Prod.fst).Nodup := by
      rw [List.enum_map_fst]
      exact List.nodup_range _
    have h2 := h1.perm (hperm.map Prod.fst).symm
    exact List.pairwise_map.mp h2
  have hmem : ∀ p ∈ List.mergeSort l.enum
      (List.enumLE (fun a b => decide (key a ≤ key b))), idx p.2 = p.1 :=
    fun p hp => hidx p (List.mem_mergeSort.mp hp)
  have hstrong : (List.mergeSort l.enum
      (List.enumLE (fun a b => decide (key a ≤ key b)))).Pairwise
      (fun p q : ℕ × α =>
        key p.2 ≤ key q.2 ∧ (key p.2 = key q.2 → idx p.2 < idx q.2)) := by
    refine (hsorted.and hnodup).imp_of_mem ?_
    intro p q hp hq hpq
    obtain ⟨h1, h2⟩ := hpq
    rw [enumLE_decide_iff key p q] at h1
    rcases h1 with hlt | ⟨heq, hij⟩
    · exact ⟨hlt.le, fun he => absurd he hlt.ne⟩
    · refine ⟨heq.le, fun _ => ?_⟩
      rw [hmem p hp, hmem q hq]
      exact lt_of_le_of_ne hij h2
  have hfinal : ((List.mergeSort l.enum
      (List.enumLE (fun a b => decide (key a ≤ key b)))).map
        (fun p : ℕ × α => p.2)).Pairwise
      (fun a b => key a ≤ key b ∧ (key a = key b → idx a < idx b)) :=
    List.pairwise_map.mpr hstrong
  rwa [List.mergeSort_enum] at hfinal

/-- C6: with nonzero consumption and a non-empty offer list, the ranking is
a permutation of the insertion-ordered ranked entries; every entry's total
is computed against the current bill's consumption, power, days and taxes
with the offer's own prices; every offer keeps its original index; and the
output is sorted ascending by calculated total with ties in original
insertion order (stable sort).  With zero consumption or an empty list the
result is empty. -/
theorem multiComparisonResults_spec (billData : BillData)
    (sims : List SavedSimulation) :
    (billData.monthlyConsumptionKwh = 0 ∨ sims = [] →
      multiComparisonResults billData sims = []) ∧
    (billData.monthlyConsumptionKwh ≠ 0 → sims ≠ [] →
      (multiComparisonResults billData sims).Perm (rankedOf billData sims) ∧
      (∀ r ∈ multiComparisonResults billData sims,
        r.calculatedTotal = (calculateWithVat billData.monthlyConsumptionKwh
          billData.contractedPowerKva billData.billingPeriodDays
          r.sim.newOffer.powerPricePerDay r.sim.newOffer.energyPricePerKwh
          (taxesOfBill billData)).total) ∧
      (∀ i : ℕ, ∀ h : i < sims.length,
        ∃ r, r ∈ multiComparisonResults billData sims ∧
          r.originalIndex = i ∧ r.sim = sims.get ⟨i, h⟩) ∧
      (multiComparisonResults billData sims).Pairwise (fun a b =>
        a.calculatedTotal ≤ b.calculatedTotal ∧
        (a.calculatedTotal = b.calculatedTotal →
          a.originalIndex < b.originalIndex))) := by
  constructor
  · intro h
    simp only [multiComparisonResults, if_pos h]
  · intro h1 h2
    have hcond : ¬ (billData.monthlyConsumptionKwh = 0 ∨ sims = []) :=
      fun hor => hor.elim h1 h2
    simp only [multiComparisonResults, if_neg hcond]
    refine ⟨List.mergeSort_perm _ _, ?_, ?_, ?_⟩
    · intro r hr
      obtain ⟨p, hp, hval⟩ := List.mem_map.mp (List.mem_mergeSort.mp hr)
      subst hval
      rfl
    · intro i h
      refine ⟨rankSim billData i (sims.get ⟨i, h⟩), ?_, rfl, rfl⟩
      rw [List.mem_mergeSort]
      simp only [rankedOf]
      apply List.mem_map.mpr
      refine ⟨(i, sims.get ⟨i, h⟩), ?_, rfl⟩
      have hlen : i < sims.enum.length := by simpa [List.enum_length] using h
      rw [List.mem_iff_getElem]
      refine ⟨i, hlen, ?_⟩
      rw [List.getElem_enum]
      rfl
    · have hidx : ∀ p ∈ (rankedOf billData sims).enum,
          p.2.originalIndex = p.1 := by
        intro p hp
        obtain ⟨n, hn, hval⟩ := List.mem_iff_getElem.mp hp
        subst hval
        rw [List.getElem_enum]
        simp [rankedOf, rankSim, List.getElem_enum]
      exact stable_sort_pairwise RankedResult.calculatedTotal
        RankedResult.originalIndex (rankedOf billData sims) hidx

/-- The concrete current bill used by the ranking witness. -/
def exBill : BillData := ⟨200, 23 / 5, 3 / 2, 1 / 10, 6, 0, 0, 30, 3 / 20, 9 / 50⟩

/-- First concrete saved simulation of the ranking witness. -/
def exSimA : SavedSimulation := ⟨some "1.0", "t1", none, ⟨"A", 7 / 50, 4 / 25⟩⟩

/-- Second concrete saved simulation of the ranking witness. -/
def exSimB : SavedSimulation := ⟨none, "t2", none, ⟨"B", 3 / 20, 9 / 50⟩⟩

/-- Witness for C6 at a concrete bill with consumption 200 kWh and two
saved simulations: the output is sorted by total with ties in insertion
order. -/
theorem multiComparisonResults_spec_witness :
    (multiComparisonResults exBill [exSimA, exSimB]).Pairwise (fun a b =>
      a.calculatedTotal ≤ b.calculatedTotal ∧
      (a.calculatedTotal = b.calculatedTotal →
        a.originalIndex < b.originalIndex)) :=
  ((multiComparisonResults_spec exBill [exSimA, exSimB]).2
    (by norm_num [exBill]) (by simp)).2.2.2
